import Mathlib

/-
Shallow embedding of the physics core of the repository (backend/physics):
vector.py, forces.py, bodies.py, integrators.py, collisions.py,
constraints.py, simulations.py, plus the snapshot serialization step of
app/api/v1/endpoints/simulation.py.  Python floats are modelled as real
numbers, Python exceptions as Except String, and in-place mutation as
explicit state passing.
-/

open scoped Classical

noncomputable section

namespace Phys

/-- Immutable 3-component vector (vector.py, class Vector3). -/
@[ext]
structure Vector3 where
  x : ℝ
  y : ℝ
  z : ℝ

instance : Add Vector3 := ⟨fun a b => ⟨a.x + b.x, a.y + b.y, a.z + b.z⟩⟩

instance : Sub Vector3 := ⟨fun a b => ⟨a.x - b.x, a.y - b.y, a.z - b.z⟩⟩

/-- Scalar multiplication, vector times scalar (Vector3.__mul__). -/
instance : HMul Vector3 ℝ Vector3 := ⟨fun v s => ⟨v.x * s, v.y * s, v.z * s⟩⟩

/-- Scalar times vector (Vector3.__rmul__ = __mul__). -/
instance : HMul ℝ Vector3 Vector3 := ⟨fun s v => v * s⟩

/-- Scalar division (Vector3.__truediv__).  The source raises
ZeroDivisionError for a zero scalar; real division is total here and every
use below divides by a scalar that is nonzero under the stated hypotheses. -/
instance : HDiv Vector3 ℝ Vector3 := ⟨fun v s => ⟨v.x / s, v.y / s, v.z / s⟩⟩

/-- Euclidean norm (Vector3.magnitude). -/
def Vector3.magnitude (v : Vector3) : ℝ :=
  Real.sqrt (v.x ^ 2 + v.y ^ 2 + v.z ^ 2)

/-- Zero vector constant (vector.py, ZERO_VECTOR). -/
def ZERO_VECTOR : Vector3 := ⟨0, 0, 0⟩

/-- Vector3.normalize: a zero-length vector normalizes to the zero vector. -/
def Vector3.normalize (v : Vector3) : Vector3 :=
  if v.magnitude = 0 then ⟨0, 0, 0⟩ else v / v.magnitude

/-- Dot product (Vector3.dot). -/
def Vector3.dot (a b : Vector3) : ℝ :=
  a.x * b.x + a.y * b.y + a.z * b.z

/-- Cross product (Vector3.cross). -/
def Vector3.cross (a b : Vector3) : Vector3 :=
  ⟨a.y * b.z - a.z * b.y, a.z * b.x - a.x * b.z, a.x * b.y - a.y * b.x⟩

/-- Vector3.from_iterable: destructures x, y, *rest; fewer than two values is
a ValueError, rest beyond the third value is ignored, a missing z is 0. -/
def Vector3.from_iterable : List ℝ → Except String Vector3
  | x :: y :: rest => .ok ⟨x, y, rest.headD 0⟩
  | _ => .error "ValueError: not enough values to unpack"

/-- Force descriptor (a Python dict of optional entries, as consumed by
create_body in simulations.py; dict.get with a default is Option.getD). -/
structure ForceData where
  type : Option String
  vector : Option (List ℝ)
  direction : Option (List ℝ)
  coefficient : Option ℝ
  reference_area : Option ℝ
  fluid_density : Option ℝ
  anchor : Option (List ℝ)
  stiffness : Option ℝ
  damping : Option ℝ
  coefficient_static : Option ℝ
  coefficient_kinetic : Option ℝ
  normal_force_magnitude : Option ℝ

/-- Empty force descriptor, for building concrete descriptors by record
update. -/
def ForceData.empty : ForceData :=
  ⟨none, none, none, none, none, none, none, none, none, none, none, none⟩

/-- Closed set of force variants (forces.py).  CustomForce wraps an arbitrary
Python callable receiving the body; a direct Body argument would be a
negative occurrence in a mutually recursive type, so the callable is
modelled on the kinematic state (position, velocity, mass) it reads.  No
force descriptor ever constructs this variant. -/
inductive Force where
  | constant (vector : Vector3)
  | gravity (direction : Vector3)
  | drag (coefficient reference_area fluid_density : ℝ)
  | spring (anchor : Vector3) (stiffness damping : ℝ)
  | friction (coefficient_static coefficient_kinetic normal_force_magnitude : ℝ)
  | custom (func : Vector3 → Vector3 → ℝ → Vector3)

/-- Rigid body (bodies.py, dataclass Body).  The dataclass declares exactly
these fields; in particular it has no friction field. -/
structure Body where
  identifier : String
  mass : ℝ
  position : Vector3
  velocity : Vector3
  radius : ℝ
  restitution : ℝ
  forces : List Force

/-- Force.compute dispatch over the variants (forces.py compute methods). -/
def Force.compute : Force → Body → Vector3
  | .constant v, _ => v
  | .gravity d, b => d * b.mass
  | .drag c a ρ, b =>
      let speed := b.velocity.magnitude
      if speed = 0 then ZERO_VECTOR
      else b.velocity.normalize * (-(0.5 * ρ * speed ^ 2 * c * a))
  | .spring anchor k d, b =>
      (b.position - anchor) * (-k) + b.velocity * (-d)
  | .friction _ ck nf, b =>
      let speed := b.velocity.magnitude
      if speed = 0 then ZERO_VECTOR
      else b.velocity.normalize * (-(ck * nf * b.mass))
  | .custom f, b => f b.position b.velocity b.mass

/-- Body.net_force: left fold of compute over the force list starting at
ZERO_VECTOR. -/
def Body.net_force (b : Body) : Vector3 :=
  b.forces.foldl (fun total f => total + f.compute b) ZERO_VECTOR

/-- Body.add_force appends to the force list. -/
def Body.add_force (b : Body) (f : Force) : Body :=
  { b with forces := b.forces ++ [f] }

/-- Body.net_force_for_state: the source temporarily substitutes position and
velocity, evaluates net_force, and restores them; purely that is net_force
of the substituted copy. -/
def Body.net_force_for_state (b : Body) (position velocity : Vector3) : Vector3 :=
  Body.net_force { b with position := position, velocity := velocity }

/-- Registry of bodies (bodies.py, BodyRegistry).  A Python dict preserves
insertion order, so it is modelled as an ordered association list with
unique identifiers enforced by add. -/
structure BodyRegistry where
  items : List Body

/-- Membership test by identifier (BodyRegistry.__contains__). -/
def BodyRegistry.containsId (reg : BodyRegistry) (i : String) : Bool :=
  reg.items.any fun b => b.identifier == i

/-- BodyRegistry.add: duplicate identifiers are a fatal error. -/
def BodyRegistry.add (reg : BodyRegistry) (b : Body) : Except String BodyRegistry :=
  if reg.containsId b.identifier then
    .error ("ValueError: Body " ++ b.identifier ++ " already registered")
  else
    .ok ⟨reg.items ++ [b]⟩

/-- BodyRegistry.get raises KeyError for an unknown identifier. -/
def BodyRegistry.get (reg : BodyRegistry) (i : String) : Except String Body :=
  match reg.items.find? (fun b => b.identifier == i) with
  | some b => .ok b
  | none => .error ("KeyError: Unknown body " ++ i)

/-- Replacement of the body stored under an identifier, preserving dict
order (Python dict assignment to an existing key). -/
def BodyRegistry.update (reg : BodyRegistry) (i : String) (nb : Body) : BodyRegistry :=
  ⟨reg.items.map fun b => if b.identifier == i then nb else b⟩

/-- BodyRegistry.all: the values in insertion order. -/
def BodyRegistry.all (reg : BodyRegistry) : List Body :=
  reg.items

/-- Semi-implicit Euler step (integrators.py, euler_step): the position
update uses the already-updated velocity. -/
def euler_step (dt : ℝ) (position velocity acceleration : Vector3) :
    Vector3 × Vector3 :=
  let new_velocity := velocity + acceleration * dt
  let new_position := position + new_velocity * dt
  (new_position, new_velocity)

/-- Classical RK4 step (integrators.py, rk4_step) for the coupled system
dp/dt = v, dv/dt = acceleration_func p v. -/
def rk4_step (dt : ℝ) (position velocity : Vector3)
    (acceleration_func : Vector3 → Vector3 → Vector3) : Vector3 × Vector3 :=
  let k1_v := acceleration_func position velocity
  let k1_p := velocity
  let k2_v := acceleration_func (position + k1_p * (dt / 2)) (velocity + k1_v * (dt / 2))
  let k2_p := velocity + k1_v * (dt / 2)
  let k3_v := acceleration_func (position + k2_p * (dt / 2)) (velocity + k2_v * (dt / 2))
  let k3_p := velocity + k2_v * (dt / 2)
  let k4_v := acceleration_func (position + k3_p * dt) (velocity + k3_v * dt)
  let k4_p := velocity + k3_v * dt
  let new_velocity := velocity + (k1_v + (2 : ℝ) * k2_v + (2 : ℝ) * k3_v + k4_v) * (dt / 6)
  let new_position := position + (k1_p + (2 : ℝ) * k2_p + (2 : ℝ) * k3_p + k4_p) * (dt / 6)
  (new_position, new_velocity)

/-- Ephemeral contact descriptor (collisions.py, dataclass Collision). -/
structure Collision where
  body1_id : String
  body2_id : String
  contact_point : Vector3
  contact_normal : Vector3
  penetration_depth : ℝ
  relative_velocity : Vector3

/-- CollisionDetector.detect_sphere_collision: contact iff the distance of
the centers is below the sum of the radii; coincident centers fall back to
the (1,0,0) normal. -/
def CollisionDetector.detect_sphere_collision (body1 body2 : Body) : Option Collision :=
  let displacement := body2.position - body1.position
  let distance := displacement.magnitude
  let combined_radius := body1.radius + body2.radius
  if distance ≥ combined_radius then none
  else
    let penetration_depth := combined_radius - distance
    let contact_normal := if distance > 0 then displacement.normalize else ⟨1, 0, 0⟩
    let contact_point := body1.position + contact_normal * body1.radius
    let relative_velocity := body2.velocity - body1.velocity
    some ⟨body1.identifier, body2.identifier, contact_point, contact_normal,
      penetration_depth, relative_velocity⟩

/-- CollisionDetector.detect_all_collisions: exhaustive pass over the
unordered pairs, in the double-loop order of the source. -/
def CollisionDetector.detect_all_collisions : List Body → List Collision
  | [] => []
  | b :: rest =>
      (rest.filterMap fun b2 => CollisionDetector.detect_sphere_collision b b2)
        ++ CollisionDetector.detect_all_collisions rest

/-- CollisionResolver._position_correction with constants slop = 0.01 and
correction percentage = 0.4. -/
def CollisionResolver.position_correction (collision : Collision)
    (body1 body2 : Body) : Body × Body :=
  let correction_percentage : ℝ := 0.4
  let slop : ℝ := 0.01
  let correction := max (collision.penetration_depth - slop) 0
    / (1 / body1.mass + 1 / body2.mass) * correction_percentage
  let correction_vector := collision.contact_normal * correction
  ({ body1 with position := body1.position - correction_vector / body1.mass },
   { body2 with position := body2.position + correction_vector / body2.mass })

/-- CollisionResolver.resolve_collision: skip when separating, otherwise
impulse on velocities followed by positional correction.  The dt parameter
of the source is unused there as well. -/
def CollisionResolver.resolve_collision (collision : Collision)
    (body1 body2 : Body) (dt : ℝ) : Body × Body :=
  let _ := dt
  let relative_velocity_normal := collision.relative_velocity.dot collision.contact_normal
  if relative_velocity_normal > 0 then (body1, body2)
  else
    let restitution := min body1.restitution body2.restitution
    let impulse_magnitude := -(1 + restitution) * relative_velocity_normal
      / (1 / body1.mass + 1 / body2.mass)
    let impulse := collision.contact_normal * impulse_magnitude
    let body1 := { body1 with velocity := body1.velocity - impulse / body1.mass }
    let body2 := { body2 with velocity := body2.velocity + impulse / body2.mass }
    CollisionResolver.position_correction collision body1 body2

/-- Closed set of constraint variants (constraints.py). -/
inductive Constraint where
  | distance (body1_id body2_id : String) (target_distance stiffness : ℝ)
  | spring (body1_id body2_id : String) (rest_length spring_constant damping : ℝ)
  | pin (body_id : String) (anchor_position : Vector3) (stiffness : ℝ)
  | revolute (body1_id body2_id : String) (anchor_point : Vector3)

/-- Constraint.apply for each variant: a failed registry lookup (KeyError in
the source, caught by the try block) returns with the registry untouched. -/
def Constraint.apply (c : Constraint) (reg : BodyRegistry) (dt : ℝ) : BodyRegistry :=
  match c with
  | .distance body1_id body2_id target_distance stiffness =>
      match reg.get body1_id, reg.get body2_id with
      | .ok body1, .ok body2 =>
          let displacement := body2.position - body1.position
          let current_distance := displacement.magnitude
          if current_distance < 1e-10 then reg
          else
            let violation := current_distance - target_distance
            if |violation| < 1e-6 then reg
            else
              let direction := displacement / current_distance
              let mass_factor := 1 / (body1.mass + body2.mass)
              let correction := violation * stiffness * 0.5
              let correction_vector := direction * correction
              let b1 := { body1 with
                position := body1.position + correction_vector * (body2.mass * mass_factor) }
              let b2 := { body2 with
                position := body2.position - correction_vector * (body1.mass * mass_factor) }
              (reg.update body1_id b1).update body2_id b2
      | _, _ => reg
  | .spring body1_id body2_id rest_length spring_constant damping =>
      match reg.get body1_id, reg.get body2_id with
      | .ok body1, .ok body2 =>
          let displacement := body2.position - body1.position
          let current_distance := displacement.magnitude
          if current_distance < 1e-10 then reg
          else
            let spring_force_magnitude := -spring_constant * (current_distance - rest_length)
            let direction := displacement / current_distance
            let spring_force := direction * spring_force_magnitude
            let spring_force :=
              if damping > 0 then
                let relative_velocity := body2.velocity - body1.velocity
                spring_force - direction * (relative_velocity.dot direction * damping)
              else spring_force
            let impulse := spring_force * dt
            let b1 := { body1 with velocity := body1.velocity - impulse / body1.mass }
            let b2 := { body2 with velocity := body2.velocity + impulse / body2.mass }
            (reg.update body1_id b1).update body2_id b2
      | _, _ => reg
  | .pin body_id anchor_position stiffness =>
      match reg.get body_id with
      | .ok body =>
          let displacement := body.position - anchor_position
          let correction := displacement * stiffness
          let b := { body with
            position := body.position - correction,
            velocity := body.velocity * (1 - stiffness * dt) }
          reg.update body_id b
      | .error _ => reg
  | .revolute body1_id body2_id anchor_point =>
      match reg.get body1_id, reg.get body2_id with
      | .ok body1, .ok body2 =>
          let total_mass := body1.mass + body2.mass
          let com := (body1.position * body1.mass + body2.position * body2.mass) / total_mass
          let correction := anchor_point - com
          let mass_factor := 1 / total_mass
          let b1 := { body1 with
            position := body1.position + correction * (body1.mass * mass_factor) }
          let b2 := { body2 with
            position := body2.position + correction * (body2.mass * mass_factor) }
          (reg.update body1_id b1).update body2_id b2
      | _, _ => reg

/-- One pass of ConstraintSolver.solve: every constraint once, in list
order. -/
def ConstraintSolver.solvePass (constraints : List Constraint)
    (reg : BodyRegistry) (dt : ℝ) : BodyRegistry :=
  constraints.foldl (fun r c => c.apply r dt) reg

/-- ConstraintSolver.solve: a fixed number of relaxation passes. -/
def ConstraintSolver.solve (constraints : List Constraint)
    (reg : BodyRegistry) (dt : ℝ) : ℕ → BodyRegistry
  | 0 => reg
  | n + 1 => ConstraintSolver.solve constraints
      (ConstraintSolver.solvePass constraints reg dt) dt n

/-- Engine configuration and state (simulations.py, dataclass Simulation).
The constraint solver is its ordered list of constraints. -/
structure Simulation where
  timestep : ℝ
  method : String
  gravity : Vector3
  bodies : BodyRegistry
  enable_collisions : Bool
  constraint_solver : List Constraint

/-- Full outcome of Simulation.add_body: the state of the caller's body
object after the call (the source mutates it in place), the engine state,
and the raised error if any.  On a duplicate identifier, BodyRegistry.add
raises before inserting, so the registry is returned unchanged — but the
gravity force appended beforehand stays on the caller's body. -/
structure AddOutcome where
  body : Body
  sim : Simulation
  error : Option String

/-- Simulation.add_body: a body with an empty force list first gets a
gravity force snapshotting the engine's current gravity vector, then the
registry add runs (and may raise on a duplicate identifier). -/
def Simulation.add_body (sim : Simulation) (b : Body) : AddOutcome :=
  let b := if b.forces.isEmpty then b.add_force (.gravity sim.gravity) else b
  match sim.bodies.add b with
  | .ok reg => ⟨b, { sim with bodies := reg }, none⟩
  | .error e => ⟨b, sim, some e⟩

/-- Per-body integration dispatch inside Simulation.step: rk4, euler, or a
fatal error for any other method name. -/
def Simulation.integrate (sim : Simulation) (body : Body) : Except String Body :=
  if sim.method = "rk4" then
    let pv := rk4_step sim.timestep body.position body.velocity
      (fun pos vel => body.net_force_for_state pos vel / body.mass)
    .ok { body with position := pv.1, velocity := pv.2 }
  else if sim.method = "euler" then
    let accel := body.net_force / body.mass
    let pv := euler_step sim.timestep body.position body.velocity accel
    .ok { body with position := pv.1, velocity := pv.2 }
  else
    .error ("ValueError: Unknown integration method: " ++ sim.method)

/-- One iteration of the loop body of Simulation.step: integrate every body
in registry order, optionally detect and resolve collisions, run the
constraint solver for 2 iterations, then record the snapshot (in registry
order) and the summed energy scalar.  Returns the updated registry, the
snapshot, the energy, and the collision count of this step. -/
def Simulation.stepOnce (sim : Simulation) (reg : BodyRegistry) :
    Except String (BodyRegistry × List (String × Vector3 × Vector3) × ℝ × ℕ) := do
  let bodies ← reg.all.mapM sim.integrate
  let reg : BodyRegistry := ⟨bodies⟩
  let pair ←
    if sim.enable_collisions then do
      let collisions := CollisionDetector.detect_all_collisions reg.all
      let reg ← collisions.foldlM (fun (r : BodyRegistry) collision => do
          let body1 ← r.get collision.body1_id
          let body2 ← r.get collision.body2_id
          let bb := CollisionResolver.resolve_collision collision body1 body2 sim.timestep
          pure ((r.update collision.body1_id bb.1).update collision.body2_id bb.2)) reg
      pure (reg, collisions.length)
    else pure (reg, 0)
  let reg := ConstraintSolver.solve sim.constraint_solver pair.1 sim.timestep 2
  let snapshot := reg.all.map fun b => (b.identifier, b.position, b.velocity)
  let total_energy := reg.all.foldl
    (fun acc b =>
      acc + (0.5 * b.mass * b.velocity.magnitude ^ 2
        + -b.mass * (sim.gravity.dot b.position))) 0
  pure (reg, snapshot, total_energy, pair.2)

/-- Result record of a run (simulations.py, dataclass SimulationResult). -/
structure SimulationResult where
  steps : List (List (String × Vector3 × Vector3))
  total_time : ℝ
  conserved_energy : List ℝ
  collision_count : ℕ

/-- Recursion over the step count, threading the registry and accumulating
history, energies and collision counts in order. -/
def Simulation.run (sim : Simulation) : ℕ → BodyRegistry →
    Except String (List (List (String × Vector3 × Vector3)) × List ℝ × ℕ × BodyRegistry)
  | 0, reg => .ok ([], [], 0, reg)
  | n + 1, reg => do
      let out ← sim.stepOnce reg
      let rest ← sim.run n out.1
      .ok (out.2.1 :: rest.1, out.2.2.1 :: rest.2.1, out.2.2.2 + rest.2.2.1, rest.2.2.2)

/-- Simulation.step: run the requested number of steps and package the
result with total_time = steps * timestep. -/
def Simulation.step (sim : Simulation) (steps : ℕ) : Except String SimulationResult := do
  let out ← sim.run steps sim.bodies
  .ok ⟨out.1, (steps : ℝ) * sim.timestep, out.2.1, out.2.2.1⟩

/-- Force construction of one descriptor inside the loop of create_body
(simulations.py): dispatch on the type entry, defaulting to constant;
anything outside the five handled kinds is a fatal error.  Note the custom
variant is not constructible from a descriptor. -/
def forceFromData (force_data : ForceData) : Except String Force :=
  let kind := force_data.type.getD "constant"
  if kind = "constant" then do
    let vector ← Vector3.from_iterable (force_data.vector.getD [0, 0, 0])
    .ok (.constant vector)
  else if kind = "gravity" then do
    let direction ← Vector3.from_iterable (force_data.direction.getD [0, -9.80665, 0])
    .ok (.gravity direction)
  else if kind = "drag" then
    .ok (.drag (force_data.coefficient.getD 0.47) (force_data.reference_area.getD 1)
      (force_data.fluid_density.getD 1.225))
  else if kind = "spring" then do
    let anchor ← Vector3.from_iterable (force_data.anchor.getD [0, 0, 0])
    .ok (.spring anchor (force_data.stiffness.getD 10) (force_data.damping.getD 0))
  else if kind = "friction" then
    .ok (.friction (force_data.coefficient_static.getD 0.8)
      (force_data.coefficient_kinetic.getD 0.6)
      (force_data.normal_force_magnitude.getD 9.81))
  else
    .error ("ValueError: Unsupported force type: " ++ kind)

/-- The descriptor loop of create_body: build each force and append it to
the body, stopping at the first unsupported descriptor. -/
def add_descriptor_forces (body : Body) (forces : List ForceData) : Except String Body :=
  forces.foldlM (fun b force_data => do
    let f ← forceFromData force_data
    pure (b.add_force f)) body

/-- The Body constructor call of create_body passes a friction keyword, but
the Body dataclass (bodies.py) declares no friction field, so the generated
init rejects the unexpected keyword with a TypeError before any body is
constructed. -/
def body_init_with_friction (identifier : String) (mass : ℝ)
    (position velocity : Vector3) (radius restitution friction : ℝ) :
    Except String Body :=
  let _ := (identifier, mass, position, velocity, radius, restitution, friction)
  .error "TypeError: Body.__init__() got an unexpected keyword argument friction"

/-- create_body (simulations.py): parse the position and velocity iterables,
call the Body constructor (which raises, see body_init_with_friction), then
run the force-descriptor loop; a None or empty force list skips the loop. -/
def create_body (identifier : String) (mass : ℝ) (position velocity : List ℝ)
    (forces : Option (List ForceData)) (radius restitution friction : ℝ) :
    Except String Body := do
  let pos ← Vector3.from_iterable position
  let vel ← Vector3.from_iterable velocity
  let body ← body_init_with_friction identifier mass pos vel radius restitution friction
  match forces with
  | some fs => if fs.isEmpty then .ok body else add_descriptor_forces body fs
  | none => .ok body

/-- Lexicographic order on identifiers, as Python compares the strings when
sorting dict items: elementwise over the characters. -/
def strKeyLe (a b : String) : Prop := a.data ≤ b.data

instance : DecidableRel strKeyLe := fun a b =>
  inferInstanceAs (Decidable (a.data ≤ b.data))

/-- Insertion step of the by-identifier sort used to model Python's sorted
over the snapshot items. -/
def insertSorted (e : String × Vector3 × Vector3) :
    List (String × Vector3 × Vector3) → List (String × Vector3 × Vector3)
  | [] => [e]
  | f :: rest => if strKeyLe e.1 f.1 then e :: f :: rest else f :: insertSorted e rest

/-- Sort of a snapshot by body identifier (the identifiers in a snapshot are
unique dict keys, so sorting the pairs is sorting by identifier). -/
def sortSnapshot : List (String × Vector3 × Vector3) →
    List (String × Vector3 × Vector3)
  | [] => []
  | e :: rest => insertSorted e (sortSnapshot rest)

/-- Serialized per-body entry (endpoints/simulation.py, SimulationStep). -/
structure SimulationStep where
  body : String
  position : List ℝ
  velocity : List ℝ

/-- Serialized response (endpoints/simulation.py, SimulationResponse). -/
structure SimulationResponse where
  total_time : ℝ
  steps : List (List SimulationStep)
  energy_profile : List ℝ
  collision_count : ℕ

/-- The serializer _serialize_result of endpoints/simulation.py: each
snapshot's items are emitted sorted by identifier. -/
def serialize_result (result : SimulationResult) : SimulationResponse :=
  { total_time := result.total_time
    steps := result.steps.map fun snapshot =>
      (sortSnapshot snapshot).map fun e =>
        ⟨e.1, [e.2.1.x, e.2.1.y, e.2.1.z], [e.2.2.x, e.2.2.y, e.2.2.z]⟩
    energy_profile := result.conserved_energy
    collision_count := result.collision_count }

/-- Referenced body identifiers of a constraint, in source order. -/
def Constraint.refs : Constraint → List String
  | .distance a b _ _ => [a, b]
  | .spring a b _ _ _ => [a, b]
  | .pin a _ _ => [a]
  | .revolute a b _ => [a, b]

/-- Kind tag of a force variant, for relating descriptors to the forces
they construct. -/
def Force.kind : Force → String
  | .constant _ => "constant"
  | .gravity _ => "gravity"
  | .drag _ _ _ => "drag"
  | .spring _ _ _ => "spring"
  | .friction _ _ _ => "friction"
  | .custom _ => "custom"

/-- Signed square helper: absMul t = |t| * t, the scalar shape produced when
a drag acceleration is evaluated at a velocity scaled by t. -/
def absMul (t : ℝ) : ℝ := |t| * t

/-- Scalar velocity factor of one RK4 step for a pure drag acceleration
dv/dt = -(mu/dt) * |w| * w on the axis of the initial velocity, with
mu = 0.5 * density * dragCoefficient * referenceArea * speed * dt / mass. -/
def rk4DragFactor (mu : ℝ) : ℝ :=
  let l2 := 1 - mu / 2
  let l3 := 1 - mu / 2 * absMul l2
  let l4 := 1 - mu * absMul l3
  1 - mu / 6 * (1 + 2 * absMul l2 + 2 * absMul l3 + absMul l4)

@[simp]
theorem Vector3.add_x (a b : Vector3) : (a + b).x = a.x + b.x := rfl

@[simp]
theorem Vector3.add_y (a b : Vector3) : (a + b).y = a.y + b.y := rfl

@[simp]
theorem Vector3.add_z (a b : Vector3) : (a + b).z = a.z + b.z := rfl

@[simp]
theorem Vector3.sub_x (a b : Vector3) : (a - b).x = a.x - b.x := rfl

@[simp]
theorem Vector3.sub_y (a b : Vector3) : (a - b).y = a.y - b.y := rfl

@[simp]
theorem Vector3.sub_z (a b : Vector3) : (a - b).z = a.z - b.z := rfl

@[simp]
theorem Vector3.mul_x (v : Vector3) (s : ℝ) : (v * s).x = v.x * s := rfl

@[simp]
theorem Vector3.mul_y (v : Vector3) (s : ℝ) : (v * s).y = v.y * s := rfl

@[simp]
theorem Vector3.mul_z (v : Vector3) (s : ℝ) : (v * s).z = v.z * s := rfl

@[simp]
theorem Vector3.rmul_def (v : Vector3) (s : ℝ) : s * v = v * s := rfl

@[simp]
theorem Vector3.div_x (v : Vector3) (s : ℝ) : (v / s).x = v.x / s := rfl

@[simp]
theorem Vector3.div_y (v : Vector3) (s : ℝ) : (v / s).y = v.y / s := rfl

@[simp]
theorem Vector3.div_z (v : Vector3) (s : ℝ) : (v / s).z = v.z / s := rfl

theorem Vector3.magnitude_nonneg (v : Vector3) : 0 ≤ v.magnitude :=
  Real.sqrt_nonneg _

theorem Vector3.magnitude_eq_zero_iff (v : Vector3) :
    v.magnitude = 0 ↔ v = ZERO_VECTOR := by
  unfold Vector3.magnitude
  rw [Real.sqrt_eq_zero (by positivity)]
  constructor
  · intro h
    have hx : v.x = 0 := by nlinarith [sq_nonneg v.x, sq_nonneg v.y, sq_nonneg v.z]
    have hy : v.y = 0 := by nlinarith [sq_nonneg v.x, sq_nonneg v.y, sq_nonneg v.z]
    have hz : v.z = 0 := by nlinarith [sq_nonneg v.x, sq_nonneg v.y, sq_nonneg v.z]
    cases v
    simp_all [ZERO_VECTOR]
  · rintro rfl
    norm_num [ZERO_VECTOR]

theorem Vector3.magnitude_x_axis (a : ℝ) :
    Vector3.magnitude ⟨a, 0, 0⟩ = |a| := by
  unfold Vector3.magnitude
  simp [Real.sqrt_sq_eq_abs]

theorem Vector3.zero_vec_add (v : Vector3) : ZERO_VECTOR + v = v := by
  ext <;> simp [ZERO_VECTOR]

theorem Vector3.from_iterable_ok (l : List ℝ) (h : 2 ≤ l.length) :
    ∃ v, Vector3.from_iterable l = .ok v := by
  match l with
  | [] => simp at h
  | [_] => simp at h
  | x :: y :: rest => exact ⟨⟨x, y, rest.headD 0⟩, rfl⟩

theorem BodyRegistry.get_of_not_contains (reg : BodyRegistry) (i : String)
    (h : reg.containsId i = false) :
    reg.get i = .error ("KeyError: Unknown body " ++ i) := by
  unfold BodyRegistry.get
  unfold BodyRegistry.containsId at h
  rw [List.any_eq_false] at h
  have hfind : reg.items.find? (fun b => b.identifier == i) = none :=
    List.find?_eq_none.mpr h
  rw [hfind]

/-- C1: the claim says create_body returns, for every valid descriptor, a
Body carrying the descriptor's friction coefficient; but the Body dataclass
declares no friction field, so the friction keyword argument passed by
create_body makes the constructor call raise a TypeError on every input.
Here the code is evaluated at the simplest valid descriptor (identifier
"a", mass 1, two-component position and velocity, defaults radius 1,
restitution 0.5, friction 0). -/
theorem c1_create_body_always_raises :
    create_body "a" 1 [0, 0] [0, 0] none 1 (1 / 2) 0 =
      .error "TypeError: Body.__init__() got an unexpected keyword argument friction" :=
  rfl

/-- C2 counterexample: a force descriptor of type custom is rejected by the
dispatch in create_body with the fatal unsupported-type error, refuting the
claim that create_body accepts every type of the set including custom. -/
theorem c2_counterexample :
    forceFromData { ForceData.empty with type := some "custom" } =
      .error "ValueError: Unsupported force type: custom" := by
  rfl

/-- C2 (amended): the force-descriptor dispatch of create_body constructs
the corresponding force variant exactly for the types constant, gravity,
drag, spring and friction (given enough components in any supplied vector
parameter), and raises the fatal unsupported-type error for every type
outside this set — including custom, which is constructible only
programmatically, never from a descriptor. -/
theorem c2_force_dispatch (d : ForceData)
    (hv : 2 ≤ (d.vector.getD [0, 0, 0]).length)
    (hg : 2 ≤ (d.direction.getD [0, -9.80665, 0]).length)
    (ha : 2 ≤ (d.anchor.getD [0, 0, 0]).length) :
    (d.type.getD "constant" ∈ ["constant", "gravity", "drag", "spring", "friction"] →
      ∃ f, forceFromData d = .ok f ∧ f.kind = d.type.getD "constant") ∧
    (d.type.getD "constant" ∉ ["constant", "gravity", "drag", "spring", "friction"] →
      forceFromData d =
        .error ("ValueError: Unsupported force type: " ++ d.type.getD "constant")) := by
  constructor
  · intro hmem
    simp only [List.mem_cons, List.mem_singleton, List.not_mem_nil, or_false] at hmem
    rcases hmem with h | h | h | h | h
    · obtain ⟨v, hv'⟩ := Vector3.from_iterable_ok _ hv
      refine ⟨.constant v, ?_, by simp [Force.kind, h]⟩
      unfold forceFromData
      simp only [h, hv', if_pos]
      rfl
    · obtain ⟨v, hv'⟩ := Vector3.from_iterable_ok _ hg
      refine ⟨.gravity v, ?_, by simp [Force.kind, h]⟩
      unfold forceFromData
      simp only [h, hv']
      norm_num
      rfl
    · refine ⟨.drag (d.coefficient.getD 0.47) (d.reference_area.getD 1)
        (d.fluid_density.getD 1.225), ?_, by simp [Force.kind, h]⟩
      unfold forceFromData
      simp [h]
    · obtain ⟨v, hv'⟩ := Vector3.from_iterable_ok _ ha
      refine ⟨.spring v (d.stiffness.getD 10) (d.damping.getD 0), ?_, by simp [Force.kind, h]⟩
      unfold forceFromData
      simp only [h, hv']
      norm_num
      rfl
    · refine ⟨.friction (d.coefficient_static.getD 0.8) (d.coefficient_kinetic.getD 0.6)
        (d.normal_force_magnitude.getD 9.81), ?_, by simp [Force.kind, h]⟩
      unfold forceFromData
      simp [h]
  · intro hmem
    simp only [List.mem_cons, List.mem_singleton, List.not_mem_nil, or_false, not_or] at hmem
    obtain ⟨h1, h2, h3, h4, h5⟩ := hmem
    unfold forceFromData
    simp [h1, h2, h3, h4, h5]

theorem c2_force_dispatch_witness :
    2 ≤ (((({ ForceData.empty with type := some "drag" } : ForceData)).vector).getD [0, 0, 0]).length ∧
    2 ≤ ((({ ForceData.empty with type := some "drag" } : ForceData)).direction.getD [0, -9.80665, 0]).length ∧
    2 ≤ ((({ ForceData.empty with type := some "drag" } : ForceData)).anchor.getD [0, 0, 0]).length ∧
    (((({ ForceData.empty with type := some "drag" } : ForceData)).type.getD "constant" ∈
        ["constant", "gravity", "drag", "spring", "friction"] →
      ∃ f, forceFromData { ForceData.empty with type := some "drag" } = .ok f ∧
        f.kind = (({ ForceData.empty with type := some "drag" } : ForceData)).type.getD "constant") ∧
     ((({ ForceData.empty with type := some "drag" } : ForceData)).type.getD "constant" ∉
        ["constant", "gravity", "drag", "spring", "friction"] →
      forceFromData { ForceData.empty with type := some "drag" } =
        .error ("ValueError: Unsupported force type: " ++
          (({ ForceData.empty with type := some "drag" } : ForceData)).type.getD "constant"))) :=
  ⟨by simp [ForceData.empty], by simp [ForceData.empty], by simp [ForceData.empty],
    c2_force_dispatch _ (by simp [ForceData.empty]) (by simp [ForceData.empty])
      (by simp [ForceData.empty])⟩

/-- C5: resolve_collision skips entirely (both bodies returned unchanged)
exactly when the normal relative velocity is positive; otherwise it applies
the impulse j = -(1+e)·vn/(1/mA+1/mB) with e = min of the restitutions to
the velocities (A loses, B gains) and then the positional correction
max(penetration - 0.01, 0)/(1/mA+1/mB)·0.4 along the normal to the
positions only. -/
theorem c5_resolve_collision (collision : Collision) (body1 body2 : Body) (dt : ℝ) :
    (0 < collision.relative_velocity.dot collision.contact_normal →
      CollisionResolver.resolve_collision collision body1 body2 dt = (body1, body2)) ∧
    (collision.relative_velocity.dot collision.contact_normal ≤ 0 →
      CollisionResolver.resolve_collision collision body1 body2 dt =
        (let vn := collision.relative_velocity.dot collision.contact_normal
         let e := min body1.restitution body2.restitution
         let j := -(1 + e) * vn / (1 / body1.mass + 1 / body2.mass)
         let correction := max (collision.penetration_depth - 0.01) 0
           / (1 / body1.mass + 1 / body2.mass) * 0.4
         ({ body1 with
              velocity := body1.velocity - collision.contact_normal * j / body1.mass,
              position := body1.position - collision.contact_normal * correction / body1.mass },
          { body2 with
              velocity := body2.velocity + collision.contact_normal * j / body2.mass,
              position := body2.position + collision.contact_normal * correction / body2.mass }))) := by
  constructor
  · intro h
    unfold CollisionResolver.resolve_collision
    rw [if_pos h]
  · intro h
    unfold CollisionResolver.resolve_collision CollisionResolver.position_correction
    rw [if_neg (not_lt.mpr h)]

theorem c5_resolve_collision_witness :
    ((0 : ℝ) <
      Vector3.dot (⟨1, 0, 0⟩ : Vector3) (⟨1, 0, 0⟩ : Vector3) →
      CollisionResolver.resolve_collision
        ⟨"a", "b", ⟨0, 0, 0⟩, ⟨1, 0, 0⟩, 0.2, ⟨1, 0, 0⟩⟩
        ⟨"a", 1, ⟨0, 0, 0⟩, ⟨0, 0, 0⟩, 1, 1, []⟩
        ⟨"b", 1, ⟨1, 0, 0⟩, ⟨1, 0, 0⟩, 1, 1, []⟩ 1 =
        (⟨"a", 1, ⟨0, 0, 0⟩, ⟨0, 0, 0⟩, 1, 1, []⟩, ⟨"b", 1, ⟨1, 0, 0⟩, ⟨1, 0, 0⟩, 1, 1, []⟩)) :=
  (c5_resolve_collision
    ⟨"a", "b", ⟨0, 0, 0⟩, ⟨1, 0, 0⟩, 0.2, ⟨1, 0, 0⟩⟩
    ⟨"a", 1, ⟨0, 0, 0⟩, ⟨0, 0, 0⟩, 1, 1, []⟩
    ⟨"b", 1, ⟨1, 0, 0⟩, ⟨1, 0, 0⟩, 1, 1, []⟩ 1).1

/-- C6: detect_sphere_collision returns a contact exactly when the distance
of the centers is strictly below the sum of the radii, and the contact then
carries normal = normalized(posB - posA) with the (1,0,0) fallback for
coincident positions, penetration = radius sum minus distance, contact
point = posA + normal·radiusA, and relative velocity = velB - velA; at or
above the radius sum it returns none. -/
theorem c6_detect_sphere_collision (body1 body2 : Body) :
    ((body2.position - body1.position).magnitude < body1.radius + body2.radius →
      CollisionDetector.detect_sphere_collision body1 body2 = some
        { body1_id := body1.identifier
          body2_id := body2.identifier
          contact_point := body1.position +
            (if body2.position = body1.position then (⟨1, 0, 0⟩ : Vector3)
             else (body2.position - body1.position).normalize) * body1.radius
          contact_normal :=
            if body2.position = body1.position then ⟨1, 0, 0⟩
            else (body2.position - body1.position).normalize
          penetration_depth :=
            (body1.radius + body2.radius) - (body2.position - body1.position).magnitude
          relative_velocity := body2.velocity - body1.velocity }) ∧
    (body1.radius + body2.radius ≤ (body2.position - body1.position).magnitude →
      CollisionDetector.detect_sphere_collision body1 body2 = none) := by
  have hcoin : (0 < (body2.position - body1.position).magnitude) ↔
      ¬ body2.position = body1.position := by
    rw [lt_iff_le_and_ne, and_iff_right (Vector3.magnitude_nonneg _)]
    rw [ne_comm, not_iff_not, Vector3.magnitude_eq_zero_iff]
    constructor
    · intro h
      have hx := congrArg Vector3.x h
      have hy := congrArg Vector3.y h
      have hz := congrArg Vector3.z h
      simp [ZERO_VECTOR] at hx hy hz
      ext <;> simp [sub_eq_zero.mp hx, sub_eq_zero.mp hy, sub_eq_zero.mp hz]
    · intro h
      rw [h]
      ext <;> simp [ZERO_VECTOR]
  constructor
  · intro h
    unfold CollisionDetector.detect_sphere_collision
    rw [if_neg (not_le.mpr h)]
    by_cases hc : body2.position = body1.position
    · have hz : ¬ ((body2.position - body1.position).magnitude > 0) := by
        rw [gt_iff_lt, hcoin]
        simp [hc]
      rw [if_neg hz]
      simp only [if_pos hc]
    · have hz : (body2.position - body1.position).magnitude > 0 := by
        rw [gt_iff_lt, hcoin]
        exact hc
      rw [if_pos hz]
      simp only [if_neg hc]
  · intro h
    unfold CollisionDetector.detect_sphere_collision
    rw [if_pos (show (body2.position - body1.position).magnitude ≥
      body1.radius + body2.radius from h)]

theorem c6_detect_sphere_collision_witness :
    (Vector3.magnitude
        ((⟨1, 0, 0⟩ : Vector3) - (⟨0, 0, 0⟩ : Vector3)) < (1 : ℝ) + 1) ∧
    CollisionDetector.detect_sphere_collision
      ⟨"a", 1, ⟨0, 0, 0⟩, ⟨0, 0, 0⟩, 1, 0.5, []⟩
      ⟨"b", 1, ⟨1, 0, 0⟩, ⟨0, 0, 0⟩, 1, 0.5, []⟩ = some
      { body1_id := "a"
        body2_id := "b"
        contact_point := (⟨0, 0, 0⟩ : Vector3) +
          (if (⟨1, 0, 0⟩ : Vector3) = (⟨0, 0, 0⟩ : Vector3) then (⟨1, 0, 0⟩ : Vector3)
           else ((⟨1, 0, 0⟩ : Vector3) - (⟨0, 0, 0⟩ : Vector3)).normalize) * (1 : ℝ)
        contact_normal :=
          if (⟨1, 0, 0⟩ : Vector3) = (⟨0, 0, 0⟩ : Vector3) then ⟨1, 0, 0⟩
          else ((⟨1, 0, 0⟩ : Vector3) - (⟨0, 0, 0⟩ : Vector3)).normalize
        penetration_depth :=
          ((1 : ℝ) + 1) - ((⟨1, 0, 0⟩ : Vector3) - (⟨0, 0, 0⟩ : Vector3)).magnitude
        relative_velocity := (⟨0, 0, 0⟩ : Vector3) - (⟨0, 0, 0⟩ : Vector3) } := by
  have hmag : Vector3.magnitude ((⟨1, 0, 0⟩ : Vector3) - (⟨0, 0, 0⟩ : Vector3)) = 1 := by
    have : ((⟨1, 0, 0⟩ : Vector3) - (⟨0, 0, 0⟩ : Vector3)) = (⟨1, 0, 0⟩ : Vector3) := by
      ext <;> simp
    rw [this, Vector3.magnitude_x_axis]
    norm_num
  refine ⟨by rw [hmag]; norm_num, ?_⟩
  exact (c6_detect_sphere_collision
    ⟨"a", 1, ⟨0, 0, 0⟩, ⟨0, 0, 0⟩, 1, 0.5, []⟩
    ⟨"b", 1, ⟨1, 0, 0⟩, ⟨0, 0, 0⟩, 1, 0.5, []⟩).1 (by rw [hmag]; norm_num)

/-- C7: every constraint variant applied against a registry lacking one of
its referenced identifiers returns without raising and with the registry
(and so every body in it) unchanged, whereas BodyRegistry.get of an unknown
identifier raises a KeyError. -/
theorem c7_soft_skip (c : Constraint) (reg : BodyRegistry) (dt : ℝ)
    (h : ∃ i ∈ c.refs, reg.containsId i = false) :
    c.apply reg dt = reg ∧
      ∀ i, reg.containsId i = false →
        reg.get i = .error ("KeyError: Unknown body " ++ i) := by
  refine ⟨?_, fun i hi => BodyRegistry.get_of_not_contains reg i hi⟩
  obtain ⟨i, hmem, hi⟩ := h
  cases c with
  | distance id1 id2 t s =>
      simp only [Constraint.refs, List.mem_cons, List.mem_singleton,
        List.not_mem_nil, or_false] at hmem
      simp only [Constraint.apply]
      rcases hmem with rfl | rfl
      · rw [BodyRegistry.get_of_not_contains reg _ hi]
      · rw [BodyRegistry.get_of_not_contains reg _ hi]
        cases reg.get id1 <;> rfl
  | spring id1 id2 r k d =>
      simp only [Constraint.refs, List.mem_cons, List.mem_singleton,
        List.not_mem_nil, or_false] at hmem
      simp only [Constraint.apply]
      rcases hmem with rfl | rfl
      · rw [BodyRegistry.get_of_not_contains reg _ hi]
      · rw [BodyRegistry.get_of_not_contains reg _ hi]
        cases reg.get id1 <;> rfl
  | pin id1 anchor s =>
      simp only [Constraint.refs, List.mem_singleton, List.mem_cons,
        List.not_mem_nil, or_false] at hmem
      simp only [Constraint.apply]
      rcases hmem with rfl
      rw [BodyRegistry.get_of_not_contains reg _ hi]
  | revolute id1 id2 anchor =>
      simp only [Constraint.refs, List.mem_cons, List.mem_singleton,
        List.not_mem_nil, or_false] at hmem
      simp only [Constraint.apply]
      rcases hmem with rfl | rfl
      · rw [BodyRegistry.get_of_not_contains reg _ hi]
      · rw [BodyRegistry.get_of_not_contains reg _ hi]
        cases reg.get id1 <;> rfl

theorem c7_soft_skip_witness :
    (∃ i ∈ (Constraint.pin "ghost" ⟨0, 0, 0⟩ 1).refs,
      BodyRegistry.containsId ⟨[]⟩ i = false) ∧
    (Constraint.pin "ghost" ⟨0, 0, 0⟩ 1).apply ⟨[]⟩ 1 = (⟨[]⟩ : BodyRegistry) ∧
      ∀ i, BodyRegistry.containsId (⟨[]⟩ : BodyRegistry) i = false →
        BodyRegistry.get (⟨[]⟩ : BodyRegistry) i =
          .error ("KeyError: Unknown body " ++ i) :=
  ⟨⟨"ghost", by simp [Constraint.refs], rfl⟩,
    c7_soft_skip (Constraint.pin "ghost" ⟨0, 0, 0⟩ 1) ⟨[]⟩ 1
      ⟨"ghost", by simp [Constraint.refs], rfl⟩⟩

theorem BodyRegistry.find?_append_self (items : List Body) (b : Body)
    (h : ∀ x ∈ items, (x.identifier == b.identifier) = false) :
    (items ++ [b]).find? (fun x => x.identifier == b.identifier) = some b := by
  induction items with
  | nil => simp [List.find?]
  | cons a rest ih =>
      have ha := h a (by simp)
      simp only [List.cons_append, List.find?]
      rw [ha]
      exact ih fun x hx => h x (by simp [hx])

theorem BodyRegistry.get_append_self (items : List Body) (b : Body)
    (h : ∀ x ∈ items, (x.identifier == b.identifier) = false) :
    BodyRegistry.get ⟨items ++ [b]⟩ b.identifier = .ok b := by
  unfold BodyRegistry.get
  rw [BodyRegistry.find?_append_self items b h]

theorem BodyRegistry.not_contains_all_false (reg : BodyRegistry) (i : String)
    (h : reg.containsId i = false) :
    ∀ x ∈ reg.items, (x.identifier == i) = false := by
  unfold BodyRegistry.containsId at h
  rw [List.any_eq_false] at h
  intro x hx
  exact Bool.eq_false_iff.mpr (h x hx)

/-- C8: a body added with an empty force list gets exactly one gravity
force appended, snapshotting the engine's gravity vector at the moment of
addition; reassigning the engine's gravity afterwards leaves the stored
body and its net force (mass times the snapshotted gravity) unchanged.  A
body added with at least one force receives no auto-attached gravity. -/
theorem c8_auto_gravity_snapshot (sim : Simulation) (b : Body) (g2 : Vector3)
    (hmem : sim.bodies.containsId b.identifier = false) :
    (b.forces = [] →
      (sim.add_body b).error = none ∧
      ({ (sim.add_body b).sim with gravity := g2 }).bodies.get b.identifier =
        .ok (b.add_force (.gravity sim.gravity)) ∧
      (b.add_force (.gravity sim.gravity)).forces = [Force.gravity sim.gravity] ∧
      (b.add_force (.gravity sim.gravity)).net_force = sim.gravity * b.mass) ∧
    (b.forces ≠ [] →
      (sim.add_body b).error = none ∧
      (sim.add_body b).sim.bodies.get b.identifier = .ok b) := by
  constructor
  · intro hforces
    have hb' : (b.add_force (.gravity sim.gravity)).identifier = b.identifier := rfl
    have hadd : sim.bodies.add (b.add_force (.gravity sim.gravity)) =
        .ok ⟨sim.bodies.items ++ [b.add_force (.gravity sim.gravity)]⟩ := by
      unfold BodyRegistry.add
      rw [hb', hmem]
      rfl
    have houtcome : sim.add_body b =
        ⟨b.add_force (.gravity sim.gravity),
          { sim with bodies := ⟨sim.bodies.items ++ [b.add_force (.gravity sim.gravity)]⟩ },
          none⟩ := by
      unfold Simulation.add_body
      rw [hforces]
      simp only [List.isEmpty_nil, if_true]
      rw [hadd]
    refine ⟨by rw [houtcome], ?_, ?_, ?_⟩
    · rw [houtcome]
      exact BodyRegistry.get_append_self _ _
        (BodyRegistry.not_contains_all_false _ _ hmem)
    · simp [Body.add_force, hforces]
    · unfold Body.net_force
      simp [Body.add_force, hforces, Force.compute, Vector3.zero_vec_add]
  · intro hforces
    have hb' : (if b.forces.isEmpty then b.add_force (.gravity sim.gravity) else b) = b := by
      rw [if_neg (by simpa [List.isEmpty_iff] using hforces)]
    have hadd : sim.bodies.add b = .ok ⟨sim.bodies.items ++ [b]⟩ := by
      unfold BodyRegistry.add
      rw [hmem]
      rfl
    have houtcome : sim.add_body b =
        ⟨b, { sim with bodies := ⟨sim.bodies.items ++ [b]⟩ }, none⟩ := by
      unfold Simulation.add_body
      rw [hb']
      simp only [hadd]
    refine ⟨by rw [houtcome], ?_⟩
    rw [houtcome]
    exact BodyRegistry.get_append_self _ _
      (BodyRegistry.not_contains_all_false _ _ hmem)

theorem c8_auto_gravity_snapshot_witness :
    BodyRegistry.containsId (⟨[]⟩ : BodyRegistry) "a" = false ∧
    (((⟨"a", 1, ⟨0, 0, 0⟩, ⟨0, 0, 0⟩, 1, 0.5, []⟩ : Body).forces = [] →
      ((⟨0.01, "rk4", ⟨0, -9.80665, 0⟩, ⟨[]⟩, false, []⟩ : Simulation).add_body
          ⟨"a", 1, ⟨0, 0, 0⟩, ⟨0, 0, 0⟩, 1, 0.5, []⟩).error = none ∧
      ({ ((⟨0.01, "rk4", ⟨0, -9.80665, 0⟩, ⟨[]⟩, false, []⟩ : Simulation).add_body
            ⟨"a", 1, ⟨0, 0, 0⟩, ⟨0, 0, 0⟩, 1, 0.5, []⟩).sim with
          gravity := (⟨0, 0, 0⟩ : Vector3) }).bodies.get "a" =
        .ok ((⟨"a", 1, ⟨0, 0, 0⟩, ⟨0, 0, 0⟩, 1, 0.5, []⟩ : Body).add_force
          (.gravity ⟨0, -9.80665, 0⟩)) ∧
      ((⟨"a", 1, ⟨0, 0, 0⟩, ⟨0, 0, 0⟩, 1, 0.5, []⟩ : Body).add_force
          (.gravity ⟨0, -9.80665, 0⟩)).forces = [Force.gravity ⟨0, -9.80665, 0⟩] ∧
      ((⟨"a", 1, ⟨0, 0, 0⟩, ⟨0, 0, 0⟩, 1, 0.5, []⟩ : Body).add_force
          (.gravity ⟨0, -9.80665, 0⟩)).net_force =
        (⟨0, -9.80665, 0⟩ : Vector3) * (1 : ℝ)) ∧
     ((⟨"a", 1, ⟨0, 0, 0⟩, ⟨0, 0, 0⟩, 1, 0.5, []⟩ : Body).forces ≠ [] →
      ((⟨0.01, "rk4", ⟨0, -9.80665, 0⟩, ⟨[]⟩, false, []⟩ : Simulation).add_body
          ⟨"a", 1, ⟨0, 0, 0⟩, ⟨0, 0, 0⟩, 1, 0.5, []⟩).error = none ∧
      ((⟨0.01, "rk4", ⟨0, -9.80665, 0⟩, ⟨[]⟩, false, []⟩ : Simulation).add_body
          ⟨"a", 1, ⟨0, 0, 0⟩, ⟨0, 0, 0⟩, 1, 0.5, []⟩).sim.bodies.get "a" =
        .ok ⟨"a", 1, ⟨0, 0, 0⟩, ⟨0, 0, 0⟩, 1, 0.5, []⟩)) :=
  ⟨rfl, c8_auto_gravity_snapshot ⟨0.01, "rk4", ⟨0, -9.80665, 0⟩, ⟨[]⟩, false, []⟩
    ⟨"a", 1, ⟨0, 0, 0⟩, ⟨0, 0, 0⟩, 1, 0.5, []⟩ ⟨0, 0, 0⟩ rfl⟩

/-- C9: adding a body whose identifier already exists raises the duplicate
error and leaves the engine (in particular its registry) unchanged, but the
gravity force appended to the empty-force-list body before the duplicate
check is not rolled back: the caller's body object ends the call carrying
exactly that gravity force. -/
theorem c9_duplicate_add_mutates_body (sim : Simulation) (b : Body)
    (hdup : sim.bodies.containsId b.identifier = true) (hforces : b.forces = []) :
    (sim.add_body b).error =
      some ("ValueError: Body " ++ b.identifier ++ " already registered") ∧
    (sim.add_body b).sim = sim ∧
    (sim.add_body b).body.forces = [Force.gravity sim.gravity] := by
  have hb' : (b.add_force (.gravity sim.gravity)).identifier = b.identifier := rfl
  have hadd : sim.bodies.add (b.add_force (.gravity sim.gravity)) =
      .error ("ValueError: Body " ++ b.identifier ++ " already registered") := by
    unfold BodyRegistry.add
    rw [hb', hdup]
    rfl
  have houtcome : sim.add_body b =
      ⟨b.add_force (.gravity sim.gravity), sim,
        some ("ValueError: Body " ++ b.identifier ++ " already registered")⟩ := by
    unfold Simulation.add_body
    rw [hforces]
    simp only [List.isEmpty_nil, if_true]
    rw [hadd]
  rw [houtcome]
  exact ⟨rfl, rfl, by simp [Body.add_force, hforces]⟩

theorem c9_duplicate_add_mutates_body_witness :
    BodyRegistry.containsId
      (⟨[⟨"a", 1, ⟨0, 0, 0⟩, ⟨0, 0, 0⟩, 1, 0.5, []⟩]⟩ : BodyRegistry) "a" = true ∧
    ((⟨"a", 2, ⟨1, 0, 0⟩, ⟨0, 0, 0⟩, 1, 0.5, []⟩ : Body).forces = []) ∧
    (((⟨0.01, "rk4", ⟨0, -1, 0⟩,
        ⟨[⟨"a", 1, ⟨0, 0, 0⟩, ⟨0, 0, 0⟩, 1, 0.5, []⟩]⟩, false, []⟩ : Simulation).add_body
        ⟨"a", 2, ⟨1, 0, 0⟩, ⟨0, 0, 0⟩, 1, 0.5, []⟩).error =
      some ("ValueError: Body " ++ "a" ++ " already registered") ∧
     ((⟨0.01, "rk4", ⟨0, -1, 0⟩,
        ⟨[⟨"a", 1, ⟨0, 0, 0⟩, ⟨0, 0, 0⟩, 1, 0.5, []⟩]⟩, false, []⟩ : Simulation).add_body
        ⟨"a", 2, ⟨1, 0, 0⟩, ⟨0, 0, 0⟩, 1, 0.5, []⟩).sim =
      ⟨0.01, "rk4", ⟨0, -1, 0⟩,
        ⟨[⟨"a", 1, ⟨0, 0, 0⟩, ⟨0, 0, 0⟩, 1, 0.5, []⟩]⟩, false, []⟩ ∧
     ((⟨0.01, "rk4", ⟨0, -1, 0⟩,
        ⟨[⟨"a", 1, ⟨0, 0, 0⟩, ⟨0, 0, 0⟩, 1, 0.5, []⟩]⟩, false, []⟩ : Simulation).add_body
        ⟨"a", 2, ⟨1, 0, 0⟩, ⟨0, 0, 0⟩, 1, 0.5, []⟩).body.forces =
      [Force.gravity ⟨0, -1, 0⟩]) :=
  ⟨rfl, rfl, c9_duplicate_add_mutates_body
    ⟨0.01, "rk4", ⟨0, -1, 0⟩, ⟨[⟨"a", 1, ⟨0, 0, 0⟩, ⟨0, 0, 0⟩, 1, 0.5, []⟩]⟩, false, []⟩
    ⟨"a", 2, ⟨1, 0, 0⟩, ⟨0, 0, 0⟩, 1, 0.5, []⟩ rfl rfl⟩

@[simp]
theorem exceptOkBind {ε α β : Type _} (a : α) (f : α → Except ε β) :
    (Except.ok a : Except ε α) >>= f = f a := rfl

@[simp]
theorem exceptPureDef {ε α : Type _} (a : α) :
    (pure a : Except ε α) = Except.ok a := rfl

@[simp]
theorem exceptErrorBind {ε α β : Type _} (e : ε) (f : α → Except ε β) :
    (Except.error e : Except ε α) >>= f = Except.error e := rfl

theorem Constraint.apply_empty_registry (c : Constraint) (dt : ℝ) :
    c.apply ⟨[]⟩ dt = (⟨[]⟩ : BodyRegistry) := by
  cases c <;> rfl

theorem ConstraintSolver.solvePass_empty (cs : List Constraint) (dt : ℝ) :
    ConstraintSolver.solvePass cs ⟨[]⟩ dt = (⟨[]⟩ : BodyRegistry) := by
  induction cs with
  | nil => rfl
  | cons c rest ih =>
      unfold ConstraintSolver.solvePass
      rw [List.foldl_cons, Constraint.apply_empty_registry]
      exact ih

theorem ConstraintSolver.solve_empty (cs : List Constraint) (dt : ℝ) (n : ℕ) :
    ConstraintSolver.solve cs ⟨[]⟩ dt n = (⟨[]⟩ : BodyRegistry) := by
  induction n with
  | zero => rfl
  | succ n ih =>
      unfold ConstraintSolver.solve
      rw [ConstraintSolver.solvePass_empty]
      exact ih

theorem Simulation.stepOnce_empty (sim : Simulation) :
    sim.stepOnce ⟨[]⟩ = .ok (⟨[]⟩, [], 0, 0) := by
  unfold Simulation.stepOnce
  cases h : sim.enable_collisions <;>
    simp [BodyRegistry.all, CollisionDetector.detect_all_collisions,
      ConstraintSolver.solve_empty, Except.map,
      show List.mapM.loop sim.integrate ([] : List Body) [] =
        Except.ok ([] : List Body) from rfl,
      show List.mapM sim.integrate ([] : List Body) =
        Except.ok ([] : List Body) from rfl]

theorem Simulation.run_empty (sim : Simulation) (n : ℕ) :
    sim.run n ⟨[]⟩ = .ok (List.replicate n [], List.replicate n 0, 0, ⟨[]⟩) := by
  induction n with
  | zero => rfl
  | succ n ih =>
      unfold Simulation.run
      rw [Simulation.stepOnce_empty]
      simp [ih, List.replicate_succ]

/-- C10: on an engine whose registry holds no bodies, step never raises for
any positive step count and any method string (supported or not): it
returns the count of empty snapshots, as many zero energy entries, total
time = steps times timestep, and a zero collision count, because the
method dispatch only runs when a body is integrated. -/
theorem c10_step_empty_registry (sim : Simulation) (n : ℕ) (hn : 0 < n)
    (hempty : sim.bodies.items = []) :
    sim.step n =
      .ok ⟨List.replicate n [], (n : ℝ) * sim.timestep, List.replicate n 0, 0⟩ := by
  have hreg : sim.bodies = (⟨[]⟩ : BodyRegistry) := by
    cases hb : sim.bodies with
    | mk items => rw [hb] at hempty; simp_all
  unfold Simulation.step
  rw [hreg, Simulation.run_empty]
  rfl

/-- C3 counterexample: with two bodies inserted in the order "b" then "a",
the snapshot appended by Simulation.step lists the identifiers in registry
insertion order ["b", "a"], which is not sorted by identifier. -/
theorem c3_counterexample :
    ((⟨1, "euler", ⟨0, 0, 0⟩,
        ⟨[⟨"b", 1, ⟨0, 0, 0⟩, ⟨0, 0, 0⟩, 1, 0.5, [.constant ⟨0, 0, 0⟩]⟩,
          ⟨"a", 1, ⟨0, 0, 0⟩, ⟨0, 0, 0⟩, 1, 0.5, [.constant ⟨0, 0, 0⟩]⟩]⟩,
        false, []⟩ : Simulation).step 1).map
      (fun res => res.steps.map fun s => s.map Prod.fst) = .ok [["b", "a"]] ∧
    ¬ List.Pairwise strKeyLe ["b", "a"] := by
  constructor
  · rfl
  · decide

theorem strKeyLe_total (a b : String) : strKeyLe a b ∨ strKeyLe b a :=
  le_total a.data b.data

theorem strKeyLe_trans {a b c : String} (h1 : strKeyLe a b) (h2 : strKeyLe b c) :
    strKeyLe a c :=
  le_trans h1 h2

theorem insertSorted_mem (e : String × Vector3 × Vector3)
    (l : List (String × Vector3 × Vector3)) (x : String × Vector3 × Vector3)
    (hx : x ∈ insertSorted e l) : x = e ∨ x ∈ l := by
  induction l with
  | nil => simpa [insertSorted] using hx
  | cons f rest ih =>
      unfold insertSorted at hx
      by_cases hle : strKeyLe e.1 f.1
      · rw [if_pos hle] at hx
        rcases List.mem_cons.mp hx with rfl | hx
        · exact Or.inl rfl
        · exact Or.inr hx
      · rw [if_neg hle] at hx
        rcases List.mem_cons.mp hx with rfl | hx
        · exact Or.inr (by simp)
        · rcases ih hx with rfl | h
          · exact Or.inl rfl
          · exact Or.inr (by simp [h])

theorem insertSorted_pairwise (e : String × Vector3 × Vector3)
    (l : List (String × Vector3 × Vector3))
    (h : l.Pairwise fun a b => strKeyLe a.1 b.1) :
    (insertSorted e l).Pairwise fun a b => strKeyLe a.1 b.1 := by
  induction l with
  | nil => simp [insertSorted]
  | cons f rest ih =>
      rw [List.pairwise_cons] at h
      obtain ⟨hf, hrest⟩ := h
      unfold insertSorted
      by_cases hle : strKeyLe e.1 f.1
      · rw [if_pos hle, List.pairwise_cons]
        refine ⟨?_, List.pairwise_cons.mpr ⟨hf, hrest⟩⟩
        intro x hx
        rcases List.mem_cons.mp hx with rfl | hx
        · exact hle
        · exact strKeyLe_trans hle (hf x hx)
      · rw [if_neg hle, List.pairwise_cons]
        refine ⟨?_, ih hrest⟩
        intro x hx
        rcases insertSorted_mem _ _ _ hx with rfl | hx
        · rcases strKeyLe_total x.1 f.1 with h | h
          · exact absurd h hle
          · exact h
        · exact hf x hx

theorem sortSnapshot_pairwise (l : List (String × Vector3 × Vector3)) :
    (sortSnapshot l).Pairwise fun a b => strKeyLe a.1 b.1 := by
  induction l with
  | nil => simp [sortSnapshot]
  | cons e rest ih => exact insertSorted_pairwise e _ ih

/-- C3 (amended): the snapshots appended by Simulation.step list the bodies
in registry insertion order; the sorted-by-identifier ordering is
established by the API serializer _serialize_result, so every serialized
snapshot is sorted by body identifier. -/
theorem c3_serializer_sorted (result : SimulationResult)
    (s : List SimulationStep) (hs : s ∈ (serialize_result result).steps) :
    s.Pairwise fun a b => strKeyLe a.body b.body := by
  unfold serialize_result at hs
  simp only [List.mem_map] at hs
  obtain ⟨snapshot, hsnap, rfl⟩ := hs
  exact List.Pairwise.map _ (fun a b h => h) (sortSnapshot_pairwise snapshot)

theorem c3_serializer_sorted_witness :
    ([⟨"a", [0, 0, 0], [0, 0, 0]⟩, ⟨"b", [0, 0, 0], [0, 0, 0]⟩] : List SimulationStep) ∈
      (serialize_result
        ⟨[[("b", ⟨0, 0, 0⟩, ⟨0, 0, 0⟩), ("a", ⟨0, 0, 0⟩, ⟨0, 0, 0⟩)]], 0, [0], 0⟩).steps ∧
    ([⟨"a", [0, 0, 0], [0, 0, 0]⟩, ⟨"b", [0, 0, 0], [0, 0, 0]⟩] : List SimulationStep).Pairwise
      (fun a b => strKeyLe a.body b.body) :=
  ⟨List.Mem.head _,
    c3_serializer_sorted
      ⟨[[("b", ⟨0, 0, 0⟩, ⟨0, 0, 0⟩), ("a", ⟨0, 0, 0⟩, ⟨0, 0, 0⟩)]], 0, [0], 0⟩
      [⟨"a", [0, 0, 0], [0, 0, 0]⟩, ⟨"b", [0, 0, 0], [0, 0, 0]⟩]
      (List.Mem.head _)⟩

theorem c10_step_empty_registry_witness :
    0 < 3 ∧
    BodyRegistry.items (⟨[]⟩ : BodyRegistry) = [] ∧
    (⟨0.5, "verlet", ⟨0, -9.80665, 0⟩, ⟨[]⟩, true, []⟩ : Simulation).step 3 =
      .ok ⟨List.replicate 3 [], ((3 : ℕ) : ℝ) * 0.5, List.replicate 3 0, 0⟩ :=
  ⟨by norm_num, rfl,
    c10_step_empty_registry ⟨0.5, "verlet", ⟨0, -9.80665, 0⟩, ⟨[]⟩, true, []⟩ 3
      (by norm_num) rfl⟩

theorem Vector3.magnitude_smul (v : Vector3) (t : ℝ) :
    (v * t).magnitude = |t| * v.magnitude := by
  unfold Vector3.magnitude
  simp only [Vector3.mul_x, Vector3.mul_y, Vector3.mul_z]
  rw [show (v.x * t) ^ 2 + (v.y * t) ^ 2 + (v.z * t) ^ 2 =
    t ^ 2 * (v.x ^ 2 + v.y ^ 2 + v.z ^ 2) by ring]
  rw [Real.sqrt_mul (sq_nonneg t), Real.sqrt_sq_eq_abs]

theorem absMul_one : absMul 1 = 1 := by
  unfold absMul
  simp

theorem absMul_of_nonneg {t : ℝ} (h : 0 ≤ t) : absMul t = t ^ 2 := by
  unfold absMul
  rw [abs_of_nonneg h]
  ring

theorem drag_net_force (b : Body) (c a ρ : ℝ) (hf : b.forces = [.drag c a ρ]) :
    b.net_force = b.velocity * (-(0.5 * ρ * c * a * b.velocity.magnitude)) := by
  unfold Body.net_force
  rw [hf]
  simp only [List.foldl_cons, List.foldl_nil, Force.compute]
  rw [Vector3.zero_vec_add]
  by_cases hs : b.velocity.magnitude = 0
  · rw [if_pos hs]
    have hv0 : b.velocity = ZERO_VECTOR := (Vector3.magnitude_eq_zero_iff _).mp hs
    rw [hv0]
    ext <;> simp [ZERO_VECTOR]
  · rw [if_neg hs]
    unfold Vector3.normalize
    rw [if_neg hs]
    ext <;> simp <;> field_simp <;> ring

theorem drag_accel (b : Body) (c a ρ : ℝ) (hf : b.forces = [.drag c a ρ])
    (p w : Vector3) :
    b.net_force_for_state p w / b.mass =
      w * (-(0.5 * ρ * c * a * w.magnitude) / b.mass) := by
  unfold Body.net_force_for_state
  rw [drag_net_force { b with position := p, velocity := w } c a ρ (by simp [hf])]
  ext <;> simp <;> ring

set_option maxHeartbeats 1000000 in
theorem rk4_step_scaled (dt : ℝ) (p v : Vector3) (f : Vector3 → Vector3 → Vector3)
    (β : ℝ) (hfa : ∀ (q : Vector3) (t : ℝ), f q (v * t) = v * (-β * absMul t)) :
    (rk4_step dt p v f).2 = v * rk4DragFactor (β * dt) := by
  have e1 : v = v * (1 : ℝ) := by ext <;> simp
  have hk1 : ∀ q : Vector3, f q v = v * (-β * absMul 1) := by
    intro q
    conv_lhs => rw [e1]
    exact hfa q 1
  simp only [rk4_step]
  rw [hk1]
  have h2 : v + v * (-β * absMul 1) * (dt / 2) = v * (1 - β * dt / 2) := by
    rw [absMul_one]
    ext <;> simp <;> ring
  rw [h2, hfa]
  have h3 : v + v * (-β * absMul (1 - β * dt / 2)) * (dt / 2) =
      v * (1 - β * dt / 2 * absMul (1 - β * dt / 2)) := by
    ext <;> simp <;> ring
  rw [h3, hfa]
  have h4 : v + v * (-β * absMul (1 - β * dt / 2 * absMul (1 - β * dt / 2))) * dt =
      v * (1 - β * dt * absMul (1 - β * dt / 2 * absMul (1 - β * dt / 2))) := by
    ext <;> simp <;> ring
  rw [h4, hfa]
  simp only [rk4DragFactor]
  rw [absMul_one]
  ext <;> simp <;> ring

set_option maxHeartbeats 1000000 in
theorem rk4DragFactor_bound (mu : ℝ) (h0 : 0 ≤ mu) (h1 : mu ≤ 1) :
    |rk4DragFactor mu| ≤ 1 := by
  simp only [rk4DragFactor]
  have hl2a : (0 : ℝ) ≤ 1 - mu / 2 := by linarith
  rw [absMul_of_nonneg hl2a]
  have hsq2a : (0 : ℝ) ≤ (1 - mu / 2) ^ 2 := sq_nonneg _
  have hsq2b : (1 - mu / 2) ^ 2 ≤ 1 := by nlinarith
  have hl3a : (0 : ℝ) ≤ 1 - mu / 2 * (1 - mu / 2) ^ 2 := by nlinarith
  have hl3b : 1 - mu / 2 * (1 - mu / 2) ^ 2 ≤ 1 := by nlinarith
  rw [absMul_of_nonneg hl3a]
  have hsq3a : (0 : ℝ) ≤ (1 - mu / 2 * (1 - mu / 2) ^ 2) ^ 2 := sq_nonneg _
  have hsq3b : (1 - mu / 2 * (1 - mu / 2) ^ 2) ^ 2 ≤ 1 := by
    nlinarith [mul_nonneg (sub_nonneg.mpr hl3b)
      (by linarith : (0 : ℝ) ≤ 1 + (1 - mu / 2 * (1 - mu / 2) ^ 2))]
  have hl4a : (0 : ℝ) ≤ 1 - mu * (1 - mu / 2 * (1 - mu / 2) ^ 2) ^ 2 := by nlinarith
  have hl4b : 1 - mu * (1 - mu / 2 * (1 - mu / 2) ^ 2) ^ 2 ≤ 1 := by nlinarith
  rw [absMul_of_nonneg hl4a]
  have hsq4a : (0 : ℝ) ≤ (1 - mu * (1 - mu / 2 * (1 - mu / 2) ^ 2) ^ 2) ^ 2 :=
    sq_nonneg _
  have hsq4b : (1 - mu * (1 - mu / 2 * (1 - mu / 2) ^ 2) ^ 2) ^ 2 ≤ 1 := by
    nlinarith [mul_nonneg (sub_nonneg.mpr hl4b)
      (by linarith : (0 : ℝ) ≤ 1 + (1 - mu * (1 - mu / 2 * (1 - mu / 2) ^ 2) ^ 2))]
  have hB0 : (0 : ℝ) ≤ 1 + 2 * (1 - mu / 2) ^ 2 +
      2 * (1 - mu / 2 * (1 - mu / 2) ^ 2) ^ 2 +
      (1 - mu * (1 - mu / 2 * (1 - mu / 2) ^ 2) ^ 2) ^ 2 := by nlinarith
  have hB6 : 1 + 2 * (1 - mu / 2) ^ 2 +
      2 * (1 - mu / 2 * (1 - mu / 2) ^ 2) ^ 2 +
      (1 - mu * (1 - mu / 2 * (1 - mu / 2) ^ 2) ^ 2) ^ 2 ≤ 6 := by nlinarith
  rw [abs_le]
  constructor <;>
    nlinarith [mul_nonneg h0 hB0, mul_le_mul h1 hB6 hB0 zero_le_one]

theorem euler_factor_bound (mu : ℝ) (h0 : 0 ≤ mu) (h1 : mu ≤ 1) :
    |1 - mu| ≤ 1 := by
  rw [abs_le]
  constructor <;> linarith

theorem integrate_euler_drag (sim : Simulation) (b : Body) (c a ρ : ℝ)
    (hf : b.forces = [.drag c a ρ]) (hmethod : sim.method = "euler") :
    ∃ q, sim.integrate b = .ok { b with
      position := q
      velocity := b.velocity *
        (1 - 0.5 * ρ * c * a * b.velocity.magnitude * sim.timestep / b.mass) } := by
  unfold Simulation.integrate
  rw [hmethod]
  rw [if_neg (by decide), if_pos rfl]
  refine ⟨(euler_step sim.timestep b.position b.velocity (b.net_force / b.mass)).1, ?_⟩
  have hV : (euler_step sim.timestep b.position b.velocity (b.net_force / b.mass)).2 =
      b.velocity *
        (1 - 0.5 * ρ * c * a * b.velocity.magnitude * sim.timestep / b.mass) := by
    simp only [euler_step]
    rw [drag_net_force b c a ρ hf]
    ext <;> simp <;> ring
  show Except.ok { b with
      position := (euler_step sim.timestep b.position b.velocity (b.net_force / b.mass)).1
      velocity := (euler_step sim.timestep b.position b.velocity (b.net_force / b.mass)).2 } = _
  rw [hV]

theorem integrate_rk4_drag (sim : Simulation) (b : Body) (c a ρ : ℝ)
    (hf : b.forces = [.drag c a ρ]) (hmethod : sim.method = "rk4") :
    ∃ q, sim.integrate b = .ok { b with
      position := q
      velocity := b.velocity * rk4DragFactor
        (0.5 * ρ * c * a * b.velocity.magnitude * sim.timestep / b.mass) } := by
  unfold Simulation.integrate
  rw [hmethod, if_pos rfl]
  refine ⟨(rk4_step sim.timestep b.position b.velocity
    (fun pos vel => b.net_force_for_state pos vel / b.mass)).1, ?_⟩
  have hfa : ∀ (q : Vector3) (t : ℝ),
      (fun pos vel => b.net_force_for_state pos vel / b.mass) q (b.velocity * t) =
        b.velocity * (-(0.5 * ρ * c * a * b.velocity.magnitude / b.mass) * absMul t) := by
    intro q t
    show b.net_force_for_state q (b.velocity * t) / b.mass = _
    rw [drag_accel b c a ρ hf q (b.velocity * t), Vector3.magnitude_smul]
    unfold absMul
    ext <;> simp <;> ring
  have hV : (rk4_step sim.timestep b.position b.velocity
      (fun pos vel => b.net_force_for_state pos vel / b.mass)).2 =
      b.velocity * rk4DragFactor
        (0.5 * ρ * c * a * b.velocity.magnitude / b.mass * sim.timestep) :=
    rk4_step_scaled sim.timestep b.position b.velocity _
      (0.5 * ρ * c * a * b.velocity.magnitude / b.mass) hfa
  show Except.ok { b with
      position := (rk4_step sim.timestep b.position b.velocity
        (fun pos vel => b.net_force_for_state pos vel / b.mass)).1
      velocity := (rk4_step sim.timestep b.position b.velocity
        (fun pos vel => b.net_force_for_state pos vel / b.mass)).2 } = _
  rw [hV, show 0.5 * ρ * c * a * b.velocity.magnitude / b.mass * sim.timestep =
    0.5 * ρ * c * a * b.velocity.magnitude * sim.timestep / b.mass by ring]

theorem Simulation.stepOnce_single (sim : Simulation) (b bq : Body)
    (hcs : sim.constraint_solver = [])
    (hint : sim.integrate b = .ok bq) (hid : bq.identifier = b.identifier) :
    ∃ E, sim.stepOnce ⟨[b]⟩ =
      .ok (⟨[bq]⟩, [(b.identifier, bq.position, bq.velocity)], E, 0) := by
  have hloop : List.mapM.loop sim.integrate [b] [] = Except.ok [bq] := by
    simp [List.mapM.loop, hint]
  refine ⟨0.5 * bq.mass * bq.velocity.magnitude ^ 2 +
    -bq.mass * (sim.gravity.dot bq.position), ?_⟩
  unfold Simulation.stepOnce
  rw [hcs]
  cases h : sim.enable_collisions <;>
    simp [BodyRegistry.all, hloop, CollisionDetector.detect_all_collisions,
      ConstraintSolver.solve, ConstraintSolver.solvePass, Except.map, hid]

theorem run_drag_chain (sim : Simulation) (c a ρ m s0 : ℝ)
    (hcs : sim.constraint_solver = [])
    (hmethod : sim.method = "euler" ∨ sim.method = "rk4")
    (hm : 0 < m) (hk : 0 ≤ 0.5 * ρ * c * a) (hdt : 0 ≤ sim.timestep)
    (hmu0 : 0.5 * ρ * c * a * s0 * sim.timestep / m ≤ 1) :
    ∀ (n : ℕ) (b : Body), b.forces = [.drag c a ρ] → b.mass = m →
      b.velocity.magnitude ≤ s0 →
      ∃ out, sim.run n ⟨[b]⟩ = .ok out ∧
        List.Chain' (fun e1 e2 => e2 ≤ e1)
          (0.5 * m * b.velocity.magnitude ^ 2 ::
            out.1.map fun t => (t.map fun e => 0.5 * m * e.2.2.magnitude ^ 2).sum) := by
  intro n
  induction n with
  | zero =>
      intro b hf hbm hs
      exact ⟨([], [], 0, ⟨[b]⟩), rfl, by simp⟩
  | succ n ih =>
      intro b hf hbm hs
      have hs0 : 0 ≤ b.velocity.magnitude := Vector3.magnitude_nonneg _
      have hmub0 : 0 ≤ 0.5 * ρ * c * a * b.velocity.magnitude * sim.timestep / b.mass := by
        rw [hbm]
        exact div_nonneg (mul_nonneg (mul_nonneg hk hs0) hdt) hm.le
      have hmub1 : 0.5 * ρ * c * a * b.velocity.magnitude * sim.timestep / b.mass ≤ 1 := by
        rw [hbm]
        refine le_trans ?_ hmu0
        refine (div_le_div_iff_of_pos_right hm).mpr ?_
        exact mul_le_mul_of_nonneg_right (mul_le_mul_of_nonneg_left hs hk) hdt
      have hint : ∃ (q : Vector3) (lam : ℝ), sim.integrate b =
          .ok { b with position := q, velocity := b.velocity * lam } ∧ |lam| ≤ 1 := by
        rcases hmethod with hme | hme
        · obtain ⟨q, hq⟩ := integrate_euler_drag sim b c a ρ hf hme
          exact ⟨q, 1 - 0.5 * ρ * c * a * b.velocity.magnitude * sim.timestep / b.mass,
            hq, euler_factor_bound _ hmub0 hmub1⟩
        · obtain ⟨q, hq⟩ := integrate_rk4_drag sim b c a ρ hf hme
          exact ⟨q,
            rk4DragFactor (0.5 * ρ * c * a * b.velocity.magnitude * sim.timestep / b.mass),
            hq, rk4DragFactor_bound _ hmub0 hmub1⟩
      obtain ⟨q, lam, hq, hlam⟩ := hint
      obtain ⟨E, hstep⟩ := Simulation.stepOnce_single sim b
        { b with position := q, velocity := b.velocity * lam } hcs hq rfl
      have hmag : (b.velocity * lam).magnitude ≤ b.velocity.magnitude := by
        rw [Vector3.magnitude_smul]
        calc |lam| * b.velocity.magnitude ≤ 1 * b.velocity.magnitude :=
              mul_le_mul_of_nonneg_right hlam hs0
          _ = b.velocity.magnitude := one_mul _
      obtain ⟨out, hrun, hchain⟩ :=
        ih { b with position := q, velocity := b.velocity * lam }
          (by simp [hf]) (by simp [hbm]) (le_trans hmag hs)
      refine ⟨([(b.identifier, q, b.velocity * lam)] :: out.1,
        E :: out.2.1, 0 + out.2.2.1, out.2.2.2), ?_, ?_⟩
      · unfold Simulation.run
        rw [hstep]
        simp only [exceptOkBind]
        rw [hrun]
        rfl
      · simp only [List.map_cons, List.map_nil, List.sum_cons, List.sum_nil, add_zero]
        refine List.chain'_cons.mpr ⟨?_, ?_⟩
        · have h2 : 0 ≤ (b.velocity * lam).magnitude := Vector3.magnitude_nonneg _
          nlinarith [mul_self_le_mul_self h2 hmag, hm.le]
        · exact hchain

/-- C4 (amended): for a single body whose only force is a drag force with
nonnegative coefficient, reference area and fluid density, nonzero initial
velocity, either integration method, and a timestep small enough that
0.5·density·coefficient·area·|v0|·dt/mass ≤ 1, the recorded kinetic-energy
values 0.5·m·|v|² per step are non-increasing across steps.  The original
claim (any timestep, strict monotonicity) fails: for larger timesteps both
explicit integrators overshoot and the kinetic energy grows, and when the
velocity reaches exactly zero consecutive recorded values are equal. -/
theorem c4_drag_energy_bounded_dt (identifier : String)
    (m radius restitution : ℝ) (p v g : Vector3) (c a ρ dt : ℝ)
    (enable : Bool) (method : String) (n : ℕ)
    (hm : 0 < m) (hc : 0 ≤ c) (ha : 0 ≤ a) (hρ : 0 ≤ ρ) (hdt : 0 < dt)
    (hv : v ≠ ZERO_VECTOR)
    (hmethod : method = "euler" ∨ method = "rk4")
    (hsmall : 0.5 * ρ * c * a * v.magnitude * dt / m ≤ 1) :
    ∃ res, (⟨dt, method, g, ⟨[⟨identifier, m, p, v, radius, restitution,
        [.drag c a ρ]⟩]⟩, enable, []⟩ : Simulation).step n = .ok res ∧
      List.Chain' (fun e1 e2 => e2 ≤ e1)
        (res.steps.map fun t =>
          (t.map fun e => 0.5 * m * e.2.2.magnitude ^ 2).sum) := by
  have hknn : 0 ≤ 0.5 * ρ * c * a :=
    mul_nonneg (mul_nonneg (mul_nonneg (by norm_num) hρ) hc) ha
  obtain ⟨out, hrun, hchain⟩ := run_drag_chain
    ⟨dt, method, g, ⟨[⟨identifier, m, p, v, radius, restitution, [.drag c a ρ]⟩]⟩,
      enable, []⟩
    c a ρ m v.magnitude rfl hmethod hm hknn hdt.le hsmall n
    ⟨identifier, m, p, v, radius, restitution, [.drag c a ρ]⟩ rfl rfl le_rfl
  refine ⟨⟨out.1, (n : ℝ) * dt, out.2.1, out.2.2.1⟩, ?_, ?_⟩
  · unfold Simulation.step
    rw [show (⟨dt, method, g, ⟨[⟨identifier, m, p, v, radius, restitution,
        [.drag c a ρ]⟩]⟩, enable, []⟩ : Simulation).bodies =
      ⟨[⟨identifier, m, p, v, radius, restitution, [.drag c a ρ]⟩]⟩ from rfl, hrun]
    rfl
  · exact hchain.tail

theorem c4_drag_energy_bounded_dt_witness :
    (0 : ℝ) < 1 ∧ (0 : ℝ) ≤ 0 ∧ (0 : ℝ) ≤ 1 ∧ (0 : ℝ) ≤ 1 ∧ (0 : ℝ) < 1 ∧
    (⟨1, 0, 0⟩ : Vector3) ≠ ZERO_VECTOR ∧
    (("euler" : String) = "euler" ∨ ("euler" : String) = "rk4") ∧
    0.5 * 1 * 0 * 1 * Vector3.magnitude ⟨1, 0, 0⟩ * 1 / 1 ≤ 1 ∧
    ∃ res, (⟨1, "euler", ⟨0, 0, 0⟩, ⟨[⟨"w", 1, ⟨0, 0, 0⟩, ⟨1, 0, 0⟩, 1, 1 / 2,
        [.drag 0 1 1]⟩]⟩, false, []⟩ : Simulation).step 2 = .ok res ∧
      List.Chain' (fun e1 e2 => e2 ≤ e1)
        (res.steps.map fun t =>
          (t.map fun e => 0.5 * 1 * e.2.2.magnitude ^ 2).sum) :=
  ⟨by norm_num, le_refl 0, by norm_num, by norm_num, by norm_num,
    by simp [ZERO_VECTOR, Vector3.mk.injEq],
    Or.inl rfl,
    by rw [Vector3.magnitude_x_axis]; norm_num,
    c4_drag_energy_bounded_dt "w" 1 1 (1 / 2) ⟨0, 0, 0⟩ ⟨1, 0, 0⟩ ⟨0, 0, 0⟩ 0 1 1 1
      false "euler" 2 (by norm_num) le_rfl (by norm_num) (by norm_num) (by norm_num)
      (by simp [ZERO_VECTOR, Vector3.mk.injEq]) (Or.inl rfl)
      (by rw [Vector3.magnitude_x_axis]; norm_num)⟩

theorem magnitude_neg_three : Vector3.magnitude ⟨-3, 0, 0⟩ = 3 := by
  rw [Vector3.magnitude_x_axis, abs_of_nonpos (by norm_num : (-3 : ℝ) ≤ 0)]
  norm_num

theorem magnitude_thirty_three : Vector3.magnitude ⟨33, 0, 0⟩ = 33 := by
  rw [Vector3.magnitude_x_axis]
  norm_num

theorem Simulation.run_succ (sim : Simulation) (n : ℕ) (reg : BodyRegistry) :
    sim.run (n + 1) reg = (do
      let out ← sim.stepOnce reg
      let rest ← sim.run n out.1
      Except.ok (out.2.1 :: rest.1, out.2.2.1 :: rest.2.1, out.2.2.2 + rest.2.2.1,
        rest.2.2.2)) := rfl

/-- C4 counterexample: a single body of mass 1 with only a drag force
(coefficient 4, reference area 1, fluid density 2), initial velocity
(1,0,0), Euler integration and timestep 1: the recorded kinetic energies
over two steps are 9/2 and then 1089/2 — the drag update overshoots and the
kinetic energy grows, refuting non-increase for every positive timestep. -/
theorem c4_counterexample :
    ((⟨1, "euler", ⟨0, 0, 0⟩,
        ⟨[⟨"d", 1, ⟨0, 0, 0⟩, ⟨1, 0, 0⟩, 1, 0.5, [.drag 4 1 2]⟩]⟩,
        false, []⟩ : Simulation).step 2).map
      (fun res => res.steps.map fun t =>
        (t.map fun e => 0.5 * (1 : ℝ) * e.2.2.magnitude ^ 2).sum) =
      .ok ([9 / 2, 1089 / 2] : List ℝ) ∧ ¬ ((1089 : ℝ) / 2 ≤ 9 / 2) := by
  constructor
  · obtain ⟨q1, hint1⟩ := integrate_euler_drag
      ⟨1, "euler", ⟨0, 0, 0⟩, ⟨[⟨"d", 1, ⟨0, 0, 0⟩, ⟨1, 0, 0⟩, 1, 0.5, [.drag 4 1 2]⟩]⟩,
        false, []⟩
      ⟨"d", 1, ⟨0, 0, 0⟩, ⟨1, 0, 0⟩, 1, 0.5, [.drag 4 1 2]⟩ 4 1 2 rfl rfl
    have hint1' : Simulation.integrate
        ⟨1, "euler", ⟨0, 0, 0⟩, ⟨[⟨"d", 1, ⟨0, 0, 0⟩, ⟨1, 0, 0⟩, 1, 0.5, [.drag 4 1 2]⟩]⟩,
          false, []⟩
        ⟨"d", 1, ⟨0, 0, 0⟩, ⟨1, 0, 0⟩, 1, 0.5, [.drag 4 1 2]⟩ =
        .ok ⟨"d", 1, q1, ⟨-3, 0, 0⟩, 1, 0.5, [.drag 4 1 2]⟩ := by
      refine hint1.trans (congrArg Except.ok ?_)
      simp only [Body.mk.injEq, true_and, and_true]
      show (⟨1, 0, 0⟩ : Vector3) *
        (1 - 0.5 * 2 * 4 * 1 * Vector3.magnitude ⟨1, 0, 0⟩ * 1 / 1) = (⟨-3, 0, 0⟩ : Vector3)
      rw [Vector3.magnitude_x_axis]
      ext <;> simp <;> norm_num
    obtain ⟨E1, hstep1⟩ := Simulation.stepOnce_single
      ⟨1, "euler", ⟨0, 0, 0⟩, ⟨[⟨"d", 1, ⟨0, 0, 0⟩, ⟨1, 0, 0⟩, 1, 0.5, [.drag 4 1 2]⟩]⟩,
        false, []⟩
      ⟨"d", 1, ⟨0, 0, 0⟩, ⟨1, 0, 0⟩, 1, 0.5, [.drag 4 1 2]⟩
      ⟨"d", 1, q1, ⟨-3, 0, 0⟩, 1, 0.5, [.drag 4 1 2]⟩ rfl hint1' rfl
    obtain ⟨q2, hint2⟩ := integrate_euler_drag
      ⟨1, "euler", ⟨0, 0, 0⟩, ⟨[⟨"d", 1, ⟨0, 0, 0⟩, ⟨1, 0, 0⟩, 1, 0.5, [.drag 4 1 2]⟩]⟩,
        false, []⟩
      ⟨"d", 1, q1, ⟨-3, 0, 0⟩, 1, 0.5, [.drag 4 1 2]⟩ 4 1 2 rfl rfl
    have hint2' : Simulation.integrate
        ⟨1, "euler", ⟨0, 0, 0⟩, ⟨[⟨"d", 1, ⟨0, 0, 0⟩, ⟨1, 0, 0⟩, 1, 0.5, [.drag 4 1 2]⟩]⟩,
          false, []⟩
        ⟨"d", 1, q1, ⟨-3, 0, 0⟩, 1, 0.5, [.drag 4 1 2]⟩ =
        .ok ⟨"d", 1, q2, ⟨33, 0, 0⟩, 1, 0.5, [.drag 4 1 2]⟩ := by
      refine hint2.trans (congrArg Except.ok ?_)
      simp only [Body.mk.injEq, true_and, and_true]
      show (⟨-3, 0, 0⟩ : Vector3) *
        (1 - 0.5 * 2 * 4 * 1 * Vector3.magnitude ⟨-3, 0, 0⟩ * 1 / 1) = (⟨33, 0, 0⟩ : Vector3)
      rw [magnitude_neg_three]
      ext <;> simp <;> norm_num
    obtain ⟨E2, hstep2⟩ := Simulation.stepOnce_single
      ⟨1, "euler", ⟨0, 0, 0⟩, ⟨[⟨"d", 1, ⟨0, 0, 0⟩, ⟨1, 0, 0⟩, 1, 0.5, [.drag 4 1 2]⟩]⟩,
        false, []⟩
      ⟨"d", 1, q1, ⟨-3, 0, 0⟩, 1, 0.5, [.drag 4 1 2]⟩
      ⟨"d", 1, q2, ⟨33, 0, 0⟩, 1, 0.5, [.drag 4 1 2]⟩ rfl hint2' rfl
    have hstep1' : Simulation.stepOnce
        ⟨1, "euler", ⟨0, 0, 0⟩, ⟨[⟨"d", 1, ⟨0, 0, 0⟩, ⟨1, 0, 0⟩, 1, 0.5, [.drag 4 1 2]⟩]⟩,
          false, []⟩
        ⟨[⟨"d", 1, ⟨0, 0, 0⟩, ⟨1, 0, 0⟩, 1, 0.5, [.drag 4 1 2]⟩]⟩ =
        .ok (⟨[⟨"d", 1, q1, ⟨-3, 0, 0⟩, 1, 0.5, [.drag 4 1 2]⟩]⟩,
          [("d", q1, ⟨-3, 0, 0⟩)], E1, 0) :=
      hstep1.trans (by rfl)
    have hstep2' : Simulation.stepOnce
        ⟨1, "euler", ⟨0, 0, 0⟩, ⟨[⟨"d", 1, ⟨0, 0, 0⟩, ⟨1, 0, 0⟩, 1, 0.5, [.drag 4 1 2]⟩]⟩,
          false, []⟩
        ⟨[⟨"d", 1, q1, ⟨-3, 0, 0⟩, 1, 0.5, [.drag 4 1 2]⟩]⟩ =
        .ok (⟨[⟨"d", 1, q2, ⟨33, 0, 0⟩, 1, 0.5, [.drag 4 1 2]⟩]⟩,
          [("d", q2, ⟨33, 0, 0⟩)], E2, 0) :=
      hstep2.trans (by rfl)
    have hrun1 : Simulation.run
        ⟨1, "euler", ⟨0, 0, 0⟩, ⟨[⟨"d", 1, ⟨0, 0, 0⟩, ⟨1, 0, 0⟩, 1, 0.5, [.drag 4 1 2]⟩]⟩,
          false, []⟩ 1
        ⟨[⟨"d", 1, q1, ⟨-3, 0, 0⟩, 1, 0.5, [.drag 4 1 2]⟩]⟩ =
        .ok ([[("d", q2, ⟨33, 0, 0⟩)]], [E2], 0 + 0,
          ⟨[⟨"d", 1, q2, ⟨33, 0, 0⟩, 1, 0.5, [.drag 4 1 2]⟩]⟩) := by
      unfold Simulation.run
      rw [hstep2']
      simp only [exceptOkBind]
      rfl
    have hrun2 : Simulation.run
        ⟨1, "euler", ⟨0, 0, 0⟩, ⟨[⟨"d", 1, ⟨0, 0, 0⟩, ⟨1, 0, 0⟩, 1, 0.5, [.drag 4 1 2]⟩]⟩,
          false, []⟩ 2
        ⟨[⟨"d", 1, ⟨0, 0, 0⟩, ⟨1, 0, 0⟩, 1, 0.5, [.drag 4 1 2]⟩]⟩ =
        .ok ([[("d", q1, ⟨-3, 0, 0⟩)], [("d", q2, ⟨33, 0, 0⟩)]], [E1, E2], 0 + (0 + 0),
          ⟨[⟨"d", 1, q2, ⟨33, 0, 0⟩, 1, 0.5, [.drag 4 1 2]⟩]⟩) := by
      unfold Simulation.run
      rw [hstep1']
      simp only [exceptOkBind]
      rw [hrun1]
      rfl
    unfold Simulation.step
    rw [show (⟨1, "euler", ⟨0, 0, 0⟩,
        ⟨[⟨"d", 1, ⟨0, 0, 0⟩, ⟨1, 0, 0⟩, 1, 0.5, [.drag 4 1 2]⟩]⟩,
        false, []⟩ : Simulation).bodies =
      ⟨[⟨"d", 1, ⟨0, 0, 0⟩, ⟨1, 0, 0⟩, 1, 0.5, [.drag 4 1 2]⟩]⟩ from rfl, hrun2]
    simp only [exceptOkBind, Except.map]
    norm_num [magnitude_neg_three, magnitude_thirty_three]
  · norm_num

end Phys
